import Mathlib

/-!
Shallow embedding of the compressed-array decompression subsystem of the
cfdm repository (netCDF CF data model).

Source files embedded here:
  * cfdm/data/gatheredarray.py        (class GatheredArray)
  * cfdm/data/raggedindexedarray.py   (class RaggedIndexedArray)
  * cfdm/read/netcdf.py               (class ReadNetCDF)
  * cfdm/structure/data/abstract/array.py (class Array)

Modelling conventions.  The code is Python 2.  Masked numpy arrays are
modelled as lists of `Option` values, `none` standing for a masked
element.  A Python statement that raises is modelled with
`Except String`, the string holding the exception text.  A reference to
a name that is bound in no enclosing scope (several occur in
gatheredarray.py, which is a mid-refactor snapshot) raises `NameError`
at the point of use; the embedding returns the corresponding
`Except.error` at exactly that point, after performing the statements
that do execute before it.
-/

/-- A fully masked rank-2 numpy array of the given shape
(`numpy.ma.masked_all`): every element starts masked (`none`). -/
def masked_all2 (r c : Nat) : List (List (Option α)) :=
  List.replicate r (List.replicate c none)

/-- A fully masked rank-3 numpy array of the given shape. -/
def masked_all3 (r c d : Nat) : List (List (List (Option α))) :=
  List.replicate r (List.replicate c (List.replicate d none))

/-- Embedding of gatheredarray.py lines 48-49: the suffix products used by
the gathered branch,
`zzz = [reduce(mul, [shape[i] for i in compressed_axes[i:]], 1) for i in range(1, n_compressed_axes)]`.
The parameter `sizes` stands for the sizes of the collapsed (compressed)
axes, extracted from the uncompressed shape along `compressed_axes`;
`reduce(mul, _, 1)` is a left fold starting from 1.  Reindexing by
`j = i - 1` gives entry `j` as the product of `sizes[j+1:]`. -/
def zzz_of (sizes : List Nat) : List Nat :=
  (List.range (sizes.length - 1)).map
    (fun j => (sizes.drop (j + 1)).foldl (fun a b => a * b) 1)

/-- Embedding of gatheredarray.py lines 55-65, the recovery of the
destination multi-index from a stored flat index `b0`:

    xxx = zeros[:]
    for i, z in enumerate(zzz):
        if b >= z:
            (a, b) = divmod(b, z)
            xxx[i] = a
        xxx[-1] = b

`k` is `n_compressed_axes` (the length of `xxx`); the final value of the
list `xxx` is returned.  These lines use only locally bound names, so
they execute as written. -/
def xxx_loop (k : Nat) (zzz : List Nat) (b0 : Nat) : List Nat :=
  (zzz.enum.foldl
    (fun (st : List Nat × Nat) iz =>
      let xxx := st.1
      let b := st.2
      let upd := if iz.2 ≤ b then (xxx.set iz.1 (b / iz.2), b % iz.2) else (xxx, b)
      (upd.1.set (k - 1) upd.2, upd.2))
    (List.replicate k 0, b0)).1

/-- Embedding of GatheredArray.__getitem__, branch
`compression_type == 'gathered'` (gatheredarray.py lines 39-71).
`shape` is `self.shape`, `vals` the wrapped compressed data
(`self.array`), `axis` is `uncompression['axis']` and `indices` is
`uncompression['indices']`.  Lines 40-43 execute (the masked buffer is
allocated and the two descriptor entries are read); line 45 then
evaluates the NAME `array`, which is bound in no scope of this branch
(the module binds only `sys`, `numpy` and `Array`; `self.array` was
intended), so execution raises NameError there.  The names `shape`
(line 48), `mul` (line 48) and `izip` (line 67) are likewise unbound and
would raise on the same call had line 45 been repaired. -/
def gathered_getitem (shape : List Nat) (vals : List α) (axis : Nat)
    (indices : List Nat) : Except String (List (Option α)) :=
  let _uarray : List (Option α) :=
    List.replicate (shape.foldl (fun a b => a * b) 1) none
  let _sample_axis := axis
  let _uncompression_indices := indices
  let _self_array := vals
  Except.error "NameError: name array is not defined"

/-- Embedding of the per-instance loop of GatheredArray.__getitem__,
branch `compression_type == 'DSG_contiguous'` (gatheredarray.py lines
80-91):

    start = 0
    for i, n in enumerate(elements_per_instance):
        n = int(n)
        sample_indices = slice(start, start + n)
        u_indices = (slice(i, i+1), slice(0, ...))
        uarray[u_indices] = array[sample_indices]
        start += n

On the first iteration the assignment evaluates the NAME `array`, which
is bound in no scope of this branch (`self.array` was intended), so a
nonempty count list raises NameError; an empty count list finishes the
loop and yields the untouched masked buffer. -/
def contiguous_loop (uarray : List (List (Option α))) (_start : Nat) :
    List Nat → Except String (List (List (Option α)))
  | [] => Except.ok uarray
  | _n :: _rest => Except.error "NameError: name array is not defined"

/-- Embedding of GatheredArray.__getitem__, branch
`compression_type == 'DSG_contiguous'` (gatheredarray.py lines 73-91),
for a full-extent request.  Line 76 allocates the masked
(instance, element) buffer; the loop then runs as `contiguous_loop`.
`vals` is `self.array`, held by the instance but never reached, because
the loop body reads the unbound name `array`. -/
def contiguous_getitem (shape0 shape1 : Nat) (elements_per_instance : List Nat)
    (vals : List α) : Except String (List (List (Option α))) :=
  let _self_array := vals
  let uarray : List (List (Option α)) := masked_all2 shape0 shape1
  contiguous_loop uarray 0 elements_per_instance

/-- Embedding of GatheredArray.__getitem__, branch
`compression_type == 'DSG_indexed_contiguous'` (gatheredarray.py lines
109-149), for a full-extent request.  Line 110 binds
`array = self.array`, line 112 allocates the masked
(instance, profile, element) buffer and line 114 reads
`elements_per_profile` from the descriptor.  The instance loop
(`for i in range(uarray.shape[0])`) then evaluates, in its first
statement (line 122), the NAME `profile_indices`, which is bound in no
scope (`uncompression['profile_indices']` was intended), so any shape
with at least one instance raises NameError; with zero instances the
loop body never runs and the untouched masked buffer is returned. -/
def indexed_contiguous_getitem (shape0 shape1 shape2 : Nat) (vals : List α)
    (elements_per_profile : List Nat) :
    Except String (List (List (List (Option α)))) :=
  let _array := vals
  let uarray : List (List (List (Option α))) := masked_all3 shape0 shape1 shape2
  let _elements_per_profile := elements_per_profile
  if shape0 = 0 then Except.ok uarray
  else Except.error "NameError: name profile_indices is not defined"

/-- Embedding of `numpy.where(index_array == i)[0]` (raggedindexedarray.py
line 87): the positions of the sample dimension whose stored index equals
`i`, in ascending position order. -/
def npwhere_eq (xs : List Nat) (i : Nat) : List Nat :=
  (List.range xs.length).filter (fun p => xs.getD p 0 == i)

/-- Embedding of numpy fancy indexing
`compressed_array[sample_dimension_indices]` (raggedindexedarray.py line
92): gather the values at the given positions, in the given order. -/
def fancy_index [Inhabited α] (vals : List α) (idxs : List Nat) : List α :=
  idxs.map (fun p => vals.getD p default)

/-- Embedding of the masked-row assignment
`uarray[i, slice(0, len(vals))] = vals`: the first `vals.length` entries
of the row are overwritten, the rest of the row is kept. -/
def write_row (row : List (Option α)) (vals : List α) : List (Option α) :=
  vals.map some ++ row.drop vals.length

/-- Embedding of RaggedIndexedArray.__getitem__
(raggedindexedarray.py lines 73-93), up to the final subspace step: the
full uncompressed (instance, element) array.

    uarray = numpy.ma.masked_all(self.shape, dtype=self.dtype)
    index_array = self.index_array.get_array()
    for i in range(uarray.shape[0]):
        sample_dimension_indices = numpy.where(index_array == i)[0]
        u_indices = (i, slice(0, len(sample_dimension_indices)))
        uarray[u_indices] = compressed_array[sample_dimension_indices]

`shape0`/`shape1` are the uncompressed shape, `index_array` the data of
the CF index variable and `vals` the compressed (sample-dimension)
values.  `rix_step` is one iteration of the instance loop; the full
uncompression folds it over `range(uarray.shape[0])` starting from the
fully masked buffer. -/
def rix_step [Inhabited α] (index_array : List Nat) (vals : List α)
    (uarray : List (List (Option α))) (i : Nat) : List (List (Option α)) :=
  let sample_dimension_indices := npwhere_eq index_array i
  uarray.set i
    (write_row (uarray.getD i []) (fancy_index vals sample_dimension_indices))

/-- The instance loop of RaggedIndexedArray.__getitem__ (loop of the
doc comment on `rix_step`): the full uncompressed (instance, element)
array, before the subspace step. -/
def ragged_indexed_uncompressed [Inhabited α] (shape0 shape1 : Nat)
    (index_array : List Nat) (vals : List α) : List (List (Option α)) :=
  (List.range shape0).foldl (rix_step index_array vals)
    (masked_all2 shape0 shape1)

/-- Modelled from the spec: the final line of
RaggedIndexedArray.__getitem__ is `self.get_subspace(uarray, indices,
copy=True)`, whose definition (abstract.CompressedArray.get_subspace) is
not among the source files; per the spec the caller-requested indices
are applied "as an ordinary subspace of the now-dense buffer", so for a
request that selects everything the result is a copy of the whole
buffer. -/
def get_subspace_all (uarray : List (List (Option α))) : List (List (Option α)) :=
  uarray

/-- Embedding of RaggedIndexedArray.__getitem__ for a select-everything
request: uncompress the entire array, then subspace it. -/
def ragged_indexed_getitem [Inhabited α] (shape0 shape1 : Nat)
    (index_array : List Nat) (vals : List α) : List (List (Option α)) :=
  get_subspace_all (ragged_indexed_uncompressed shape0 shape1 index_array vals)

/-- The `gathered` entry recorded by
ReadNetCDF._parse_compression_gathered (netcdf.py lines 507-509). -/
structure GatheredEntry where
  indices : List Nat
  implied_ncdimensions : List String
deriving DecidableEq

/-- The `DSG_contiguous` entry recorded by
ReadNetCDF._parse_DSG_contiguous_compression (netcdf.py lines 569-580).
Only the fields read elsewhere in the embedded code are kept. -/
structure ContiguousEntry where
  elements_per_instance : List Nat
  implied_ncdimensions : List String
  profile_ncdimension : String
  element_dimension : String
  element_dimension_size : Nat
  instance_dimension_size : Nat
deriving DecidableEq

/-- The `DSG_indexed` entry recorded by
ReadNetCDF._parse_DSG_indexed_compression (netcdf.py lines 653-662). -/
structure IndexedEntry where
  elements_per_instance : List Nat
  instances : List Nat
  implied_ncdimensions : List String
  element_dimension : String
  instance_dimension_size : Nat
  element_dimension_size : Nat
deriving DecidableEq

/-- The `DSG_indexed_contiguous` entry recorded by
ReadNetCDF._parse_DSG_indexed_contiguous_compression (netcdf.py lines
723-733). -/
structure IndexedContiguousEntry where
  profiles_per_instance : List Nat
  elements_per_profile : List Nat
  profile_indices : List Nat
  implied_ncdimensions : List String
  instance_dimension_size : Nat
  element_dimension_1_size : Nat
  element_dimension_2_size : Nat
deriving DecidableEq

/-- The per-sample-dimension inner dictionary of `g['compression']`: at
most one entry per compression scheme, keyed by the scheme name.  A
missing key is `none`. -/
structure CompressionEntry where
  gathered : Option GatheredEntry := none
  DSG_contiguous : Option ContiguousEntry := none
  DSG_indexed : Option IndexedEntry := none
  DSG_indexed_contiguous : Option IndexedContiguousEntry := none
deriving DecidableEq

/-- The dictionary `g['compression']`, keyed by netCDF sample-dimension
name, in insertion order (Python dict). -/
abbrev CompMap := List (String × CompressionEntry)

/-- Dictionary membership and lookup for `g['compression']`. -/
def lookupComp : CompMap → String → Option CompressionEntry
  | [], _ => none
  | (k2, v) :: rest, k => if k2 = k then some v else lookupComp rest k

/-- Dictionary assignment `g['compression'][k] = v`: replace the value
if the key exists, otherwise append the new key. -/
def setComp : CompMap → String → CompressionEntry → CompMap
  | [], k, v => [(k, v)]
  | (k2, v2) :: rest, k, v =>
    if k2 = k then (k2, v) :: rest else (k2, v2) :: setComp rest k v

/-- In-place modification of the inner dictionary held under key `k`
(for adding one scheme key and deleting another); a no-op when the key is
absent. -/
def updateComp : CompMap → String → (CompressionEntry → CompressionEntry) → CompMap
  | [], _, _ => []
  | (k2, v) :: rest, k, f =>
    if k2 = k then (k2, f v) :: rest else (k2, v) :: updateComp rest k f

/-- Embedding of `numpy .max()` on a count array (`int(xs.max())`,
netcdf.py lines 716-717): the maximum of the list, raising on an empty
array as numpy does. -/
def npmax (l : List Nat) : Except String Nat :=
  match l.max? with
  | some m => Except.ok m
  | none => Except.error "ValueError: max of empty array"

/-- Embedding of a Python dictionary subscript
`g['compression'][k]`: the value, or a KeyError when the key is
absent. -/
def dictGet (comp : CompMap) (k : String) : Except String CompressionEntry :=
  match lookupComp comp k with
  | some v => Except.ok v
  | none => Except.error "KeyError"

/-- Embedding of a subscript on the inner per-dimension dictionary,
`entry[scheme]`: the scheme record, or a KeyError when that scheme key
is absent. -/
def schemeGet (field : Option β) : Except String β :=
  match field with
  | some v => Except.ok v
  | none => Except.error "KeyError"

/-- Embedding of ReadNetCDF._parse_DSG_indexed_contiguous_compression
(netcdf.py lines 673-745).  Called by `read` (lines 352-357) as soon as
both a count variable and an index variable were found, with no check
that the two descriptors belong together.  Every dictionary subscript is
unguarded:

    profile_ncdimension = g['compression'][sample_dimension]['DSG_contiguous']['profile_ncdimension']
    contiguous = g['compression'][sample_dimension]['DSG_contiguous']
    indexed    = g['compression'][profile_ncdimension]['DSG_indexed']
    ...
    g['compression'][sample_dimension]['DSG_indexed_contiguous'] = { ... }
    del g['compression'][sample_dimension]['DSG_contiguous']

so when `profile_ncdimension` is not the key under which the indexed
half was recorded, the third subscript raises KeyError instead of
leaving the two halves standalone. -/
def parse_DSG_indexed_contiguous_compression (comp : CompMap)
    (sample_dimension instance_dimension : String) : Except String CompMap := do
  let entry0 ← dictGet comp sample_dimension
  let contiguous ← schemeGet entry0.DSG_contiguous
  let profile_ncdimension := contiguous.profile_ncdimension
  let entry1 ← dictGet comp profile_ncdimension
  let indexed ← schemeGet entry1.DSG_indexed
  let profile_indices := indexed.instances
  let profiles_per_instance := indexed.elements_per_instance
  let elements_per_profile := contiguous.elements_per_instance
  let instance_dimension_size := indexed.instance_dimension_size
  let element_dimension_1_size ← npmax profiles_per_instance
  let element_dimension_2_size ← npmax elements_per_profile
  let composed : IndexedContiguousEntry :=
    { profiles_per_instance := profiles_per_instance,
      elements_per_profile := elements_per_profile,
      profile_indices := profile_indices,
      implied_ncdimensions :=
        [instance_dimension, indexed.element_dimension,
         contiguous.element_dimension],
      instance_dimension_size := instance_dimension_size,
      element_dimension_1_size := element_dimension_1_size,
      element_dimension_2_size := element_dimension_2_size }
  Except.ok (updateComp comp sample_dimension (fun e =>
    { e with DSG_indexed_contiguous := some composed, DSG_contiguous := none }))

/-- Embedding of `list.index(x)` on a Python list: position of the first
occurrence (total here; the argument is always present at its uses). -/
def list_index : List String → String → Nat
  | [], _ => 0
  | x :: rest, d => if x = d then 0 else list_index rest d + 1

/-- Embedding of the Python slice assignment
`ncdimensions[i:i+1] = repl` (netcdf.py line 2116): splice `repl` into
the list in place of the single element at position `i`. -/
def splice_at (l : List String) (i : Nat) (repl : List String) : List String :=
  l.take i ++ repl ++ l.drop (i + 1)

/-- Embedding of the substitution loop of ReadNetCDF._ncdimensions
(netcdf.py lines 2110-2132).  `all` is the current value of the
`ncdimensions` list, the recursion argument the iteration tail:

    for ncdim in ncdimensions:
        if ncdim in compression:
            c = compression[ncdim]
            if 'gathered' in c:
                i = ncdimensions.index(ncdim)
                ncdimensions[i:i+1] = c['gathered']['implied_ncdimensions']
            elif 'DSG_indexed_contiguous' in c:
                i = ncdimensions.index(ncdim)
                ncdimensions = c['DSG_indexed_contiguous']['implied_ncdimensions']
            elif 'DSG_contiguous' in c:
                ncdimensions = c['DSG_contiguous']['implied_ncdimensions']
            elif 'DSG_indexed' in c:
                ncdimensions = c['DSG_indexed']['implied_ncdimensions']
            break

Only the gathered branch splices in place; the three DSG branches
replace the whole list.  The loop stops at the first compressed
dimension. -/
def ncdimensions_loop (comp : CompMap) (all : List String) :
    List String → List String
  | [] => all
  | d :: rest =>
    match lookupComp comp d with
    | none => ncdimensions_loop comp all rest
    | some c =>
      match c.gathered with
      | some gg => splice_at all (list_index all d) gg.implied_ncdimensions
      | none =>
        match c.DSG_indexed_contiguous with
        | some ic => ic.implied_ncdimensions
        | none =>
          match c.DSG_contiguous with
          | some ce => ce.implied_ncdimensions
          | none =>
            match c.DSG_indexed with
            | some ie => ie.implied_ncdimensions
            | none => all

/-- Embedding of ReadNetCDF._ncdimensions (netcdf.py lines 2092-2135)
for a non-character variable: start from the declared dimension-name
list; `if compression and set(compression).intersection(ncdimensions):`
guards the substitution loop. -/
def ncdimensions_fn (comp : CompMap) (dims : List String) : List String :=
  if (!comp.isEmpty && dims.any (fun d => (lookupComp comp d).isSome)) = true then
    ncdimensions_loop comp dims dims
  else dims

/-- The data recorded for a CompressedArray built by the reader: the
arguments `shape`, `ndim`, `size` and `compression_type` passed to
`self._GatheredArray(...)` by the `_aaa` builders of netcdf.py. -/
structure BuiltCompressedArray where
  shape : List Nat
  ndim : Nat
  size : Nat
  compression_type : String
deriving DecidableEq

/-- Embedding of ReadNetCDF._aaa1 (netcdf.py lines 2172-2192), the
builder for a DSG contiguous ragged array:

    uncompressed_shape = (c['instance_dimension_size'], c['element_dimension_size'])
    uncompressed_ndim  = len(uncompressed_shape)
    uncompressed_size  = long(reduce(operator.mul, uncompressed_shape, 1))

`reduce(operator.mul, _, 1)` is a left fold starting from 1. -/
def aaa1 (c : ContiguousEntry) : BuiltCompressedArray :=
  let uncompressed_shape := [c.instance_dimension_size, c.element_dimension_size]
  { shape := uncompressed_shape,
    ndim := uncompressed_shape.length,
    size := uncompressed_shape.foldl (fun a b => a * b) 1,
    compression_type := "DSG_contiguous" }

/-- Embedding of ReadNetCDF._aaa2 (netcdf.py lines 2194-2214), the
builder for a DSG indexed ragged array; same shape and size computation
as `aaa1`. -/
def aaa2 (c : IndexedEntry) : BuiltCompressedArray :=
  let uncompressed_shape := [c.instance_dimension_size, c.element_dimension_size]
  { shape := uncompressed_shape,
    ndim := uncompressed_shape.length,
    size := uncompressed_shape.foldl (fun a b => a * b) 1,
    compression_type := "DSG_indexed" }

/-- Embedding of ReadNetCDF._aaa3 (netcdf.py lines 2216-2237), the
builder for a DSG indexed contiguous ragged array:

    uncompressed_shape = (c['instance_dimension_size'],
                          c['element_dimension_1_size'],
                          c['element_dimension_2_size'])
    uncompressed_size  = long(reduce(operator.mul, uncompressed_shape, 1))
-/
def aaa3 (c : IndexedContiguousEntry) : BuiltCompressedArray :=
  let uncompressed_shape :=
    [c.instance_dimension_size, c.element_dimension_1_size,
     c.element_dimension_2_size]
  { shape := uncompressed_shape,
    ndim := uncompressed_shape.length,
    size := uncompressed_shape.foldl (fun a b => a * b) 1,
    compression_type := "DSG_indexed_contiguous" }

/-- Embedding of ReadNetCDF._aaa0 (netcdf.py lines 2145-2170), the
builder for a gathered array.  `uncompressed_dim_sizes` stands for the
sizes of the dimensions returned by `self._ncdimensions(ncvar)` (lines
2150-2151); lines 2150-2153 compute shape, ndim and size, but line 2156
(`c['sample_axis'] = g['nc'].variables[ncvar].dimensions.index(ncdim)`)
evaluates the NAME `g`, which is never bound inside `_aaa0` (the method
lacks the `g = self.read_vars` preamble of its siblings; `ncdim` and
`gathered` on lines 2156 and 2163 are unbound too), so the builder
raises NameError before any array is constructed. -/
def aaa0 (uncompressed_dim_sizes : List Nat) :
    Except String BuiltCompressedArray :=
  let uncompressed_shape := uncompressed_dim_sizes
  let _uncompressed_ndim := uncompressed_shape.length
  let _uncompressed_size := uncompressed_shape.foldl (fun a b => a * b) 1
  Except.error "NameError: name g is not defined"

/-- Helper for `parse_y`: scan the characters of the attribute value,
accumulating the current word (reversed) and emitting it at each
whitespace run or at the end. -/
def words_aux : List Char → List Char → List String
  | [], acc => if acc.isEmpty then [] else [String.mk acc.reverse]
  | c :: rest, acc =>
    if c = ' ' then
      if acc.isEmpty then words_aux rest []
      else String.mk acc.reverse :: words_aux rest []
    else words_aux rest (c :: acc)

/-- Embedding of Python `str.split()` with no argument, used by
ReadNetCDF._parse_y (netcdf.py line 2589) on the `compress` attribute:
split on whitespace runs, dropping empty pieces (the space character
is the only whitespace occurring in attribute values here). -/
def parse_y (s : String) : List String :=
  words_aux s.data []

/-- Embedding of ReadNetCDF._check_compress (netcdf.py lines 2540-2552):

    for ncdim in parsed_compress:
        if ncdim not in ncdimensions:
            return False
    return True

`file_ncdimensions` is the set of netCDF dimension names of the open
file. -/
def check_compress (file_ncdimensions : List String)
    (parsed_compress : List String) : Bool :=
  parsed_compress.all (fun d => file_ncdimensions.contains d)

/-- Embedding of ReadNetCDF._parse_compression_gathered (netcdf.py lines
489-510).  `gathered_ncdimension` is the sole dimension of the list
variable, `compress` its compress attribute and `indices` the data of
the list variable.

    parsed_compress = self._parse_y(ncvar, compress)
    cf_compliant = self._check_compress(ncvar, compress, parsed_compress)
    if not cf_compliant:
        return
    indices = self._create_data(ncvar, uncompress_override=True)
    g['compression'][gathered_ncdimension] = {
        'gathered': {'indices': indices, 'implied_ncdimensions': parsed_compress}}

On a failed check the function returns with the compression mapping
untouched and nothing raised. -/
def parse_compression_gathered (comp : CompMap)
    (file_ncdimensions : List String) (gathered_ncdimension : String)
    (compress : String) (indices : List Nat) : CompMap :=
  let parsed_compress := parse_y compress
  let cf_compliant := check_compress file_ncdimensions parsed_compress
  if cf_compliant then
    setComp comp gathered_ncdimension
      { gathered := some
          { indices := indices, implied_ncdimensions := parsed_compress } }
  else comp

/-- Which construction `_create_data` routes a variable to: the plain
file-backed array (`self._create_Data(filearray, ...)`, whose shape is
the on-disk shape set on lines 1818-1820), or one of the four
CompressedArray builders. -/
inductive DataBuild
  | raw
  | viaAaa0
  | viaAaa1
  | viaAaa2
  | viaAaa3
deriving DecidableEq

/-- Embedding of the dispatch loop of ReadNetCDF._create_data
(netcdf.py lines 1862-1890): walk the dimensions of the variable in file
order; every dimension present in the compression mapping reassigns
`data` (there is no break, so a later compressed dimension wins); an
entry carrying none of the four scheme keys raises ValueError at once.
The accumulator starts from the NameError that would follow from `data`
never being assigned. -/
def create_data_loop (comp : CompMap) (cur : Except String DataBuild) :
    List String → Except String DataBuild
  | [] => cur
  | d :: rest =>
    match lookupComp comp d with
    | none => create_data_loop comp cur rest
    | some c =>
      if c.gathered.isSome then
        create_data_loop comp (Except.ok DataBuild.viaAaa0) rest
      else if c.DSG_indexed_contiguous.isSome then
        create_data_loop comp (Except.ok DataBuild.viaAaa3) rest
      else if c.DSG_contiguous.isSome then
        create_data_loop comp (Except.ok DataBuild.viaAaa1) rest
      else if c.DSG_indexed.isSome then
        create_data_loop comp (Except.ok DataBuild.viaAaa2) rest
      else Except.error "ValueError: Bad compression vibes"

/-- Embedding of the branch structure of ReadNetCDF._create_data
(netcdf.py lines 1843-1891):

    if ((uncompress_override is not None and not uncompress_override) or
        not g['compression'] or
        not g['uncompress'] or
        not set(compression).intersection(ncvariable.dimensions)):
        data = self._create_Data(filearray, ...)
    else:
        for ncdim in ncvariable.dimensions: ...

`g['uncompress']` is the `uncompress` argument of `read`, stored at line
195. -/
def create_data_dispatch (uncompress_override : Option Bool) (comp : CompMap)
    (uncompress : Bool) (var_dimensions : List String) :
    Except String DataBuild :=
  if uncompress_override = some false ∨ comp = [] ∨ uncompress = false ∨
      var_dimensions.all (fun d => (lookupComp comp d).isNone) then
    Except.ok DataBuild.raw
  else
    create_data_loop comp
      (Except.error "NameError: name data is not defined") var_dimensions

/-- A Python object as the abstract Array class manipulates it: its
class and its `__dict__`, an attribute dictionary mapping attribute
names to references (object identities, modelled as numerals); two equal
references denote the very same object. -/
structure PyObj where
  cls : String
  attrs : List (String × Nat)
deriving DecidableEq

/-- Attribute lookup in a `__dict__`. -/
def attr_lookup : List (String × Nat) → String → Option Nat
  | [], _ => none
  | (k2, v) :: rest, k => if k2 = k then some v else attr_lookup rest k

/-- Embedding of Array.copy (structure/data/abstract/array.py lines
201-220):

    klass = self.__class__
    new = klass.__new__(klass)
    new.__dict__ = self.__dict__.copy()
    return new

`dict.copy()` is a shallow copy: a fresh dictionary holding the same
attribute names bound to the identical references. -/
def array_copy (a : PyObj) : PyObj :=
  { cls := a.cls, attrs := a.attrs }

/-- Embedding of Array.__deepcopy__ (structure/data/abstract/array.py
lines 60-67), the hook `copy.deepcopy` invokes; the memo dictionary is
ignored and `self.copy()` is returned. -/
def array_deepcopy (a : PyObj) (_memo : List (Nat × Nat)) : PyObj :=
  array_copy a

/-- Concrete composition fixture: a contiguous half as recorded under a
sample dimension `s`, with per-profile element counts [2,3,1] and the
given profile dimension name. -/
def cont_half (pdim : String) : ContiguousEntry :=
  { elements_per_instance := [2, 3, 1],
    implied_ncdimensions := [pdim, "e2"],
    profile_ncdimension := pdim,
    element_dimension := "e2",
    element_dimension_size := 3,
    instance_dimension_size := 3 }

/-- Concrete composition fixture: an indexed half as recorded under the
profile dimension `p`, grouping the three profiles into two instances
as [0, 1, 0] (instance 0 owns profiles p0 and p2, instance 1 owns
profile p1), with per-instance profile counts [2, 1]. -/
def idx_half : IndexedEntry :=
  { elements_per_instance := [2, 1],
    instances := [0, 1, 0],
    implied_ncdimensions := ["i", "e1"],
    element_dimension := "e1",
    instance_dimension_size := 2,
    element_dimension_size := 2 }

/-- A compression mapping whose halves match: the contiguous half under
`s` names profile dimension `p`, which is the key of the indexed
half. -/
def comp_match : CompMap :=
  [("s", { DSG_contiguous := some (cont_half "p") }),
   ("p", { DSG_indexed := some idx_half })]

/-- A compression mapping whose halves do not match: the contiguous
half under `s` names profile dimension `q`, while the indexed half is
keyed by `p`. -/
def comp_mismatch : CompMap :=
  [("s", { DSG_contiguous := some (cont_half "q") }),
   ("p", { DSG_indexed := some idx_half })]

/-- A contiguous ragged descriptor fixture with counts [3, 2] implying
dimensions (i, e). -/
def cont_entry : ContiguousEntry :=
  { elements_per_instance := [3, 2],
    implied_ncdimensions := ["i", "e"],
    profile_ncdimension := "s",
    element_dimension := "e",
    element_dimension_size := 3,
    instance_dimension_size := 2 }

/-- A compression mapping with the single contiguous ragged descriptor
`cont_entry` under sample dimension `s`. -/
def comp_cont_only : CompMap :=
  [("s", { DSG_contiguous := some cont_entry })]

/-- A gathered descriptor fixture implying dimensions (a, b). -/
def gath_entry : GatheredEntry :=
  { indices := [0, 1, 2], implied_ncdimensions := ["a", "b"] }

/-- A compression mapping with the single gathered descriptor
`gath_entry` under dimension `gdim`. -/
def comp_gath_only : CompMap :=
  [("gdim", { gathered := some gath_entry })]


/-! Theorems. -/

/-- C1.  The gathered decompression of GatheredArray.__getitem__ never
reaches its divmod index recovery: line 45 dereferences the unbound name
`array` and the call raises NameError for every input, in particular for
collapsed axes of sizes (2,3) with stored indices [0,1,2,3,4,5] (first
conjunct).  The divmod loop itself (lines 55-65, embedded as `xxx_loop`
over the suffix products `zzz_of`), had its inputs been bound, maps the
stored indices [0..5] to the claimed destination coordinates
(0,0),(0,1),(0,2),(1,0),(1,1),(1,2), most-significant axis first (second
conjunct): the claimed arithmetic is the evident intent, and the unbound
names are the slip. -/
theorem gathered_divmod_code_bug :
    gathered_getitem (α := Nat) [2, 3] [11, 12, 13, 14, 15, 16] 0
        [0, 1, 2, 3, 4, 5] =
      Except.error "NameError: name array is not defined"
    ∧ (List.range 6).map (fun b => xxx_loop 2 (zzz_of [2, 3]) b) =
      [[0, 0], [0, 1], [0, 2], [1, 0], [1, 1], [1, 2]] := by
  exact ⟨rfl, by decide⟩

/-- C2.  The indexed-contiguous decompression of
GatheredArray.__getitem__ raises NameError on any array with at least
one instance: line 122 dereferences the unbound name `profile_indices`
(the descriptor key `profile_indices` was intended), so the claimed
placement never happens.  Evaluated at the claimed failing input: shape
(2 instances, 2 profiles, 3 elements), per-profile element counts
[2,3,1] and sample values [1..6] (the profile grouping 0 maps to p0 and
p2 and 1 maps to p1 is never even read). -/
theorem indexed_contiguous_code_bug :
    indexed_contiguous_getitem (α := Nat) 2 2 3 [1, 2, 3, 4, 5, 6] [2, 3, 1] =
      Except.error "NameError: name profile_indices is not defined" := by
  rfl

/-- C3.  The contiguous-ragged decompression of
GatheredArray.__getitem__ raises NameError on any nonempty count list:
line 88 dereferences the unbound name `array` (`self.array` was
intended), so the claimed running-sum placement never happens.
Evaluated at the claimed failing input: counts [3,2] over sample values
[1..5] with uncompressed shape (2,3). -/
theorem contiguous_ragged_code_bug :
    contiguous_getitem (α := Nat) 2 3 [3, 2] [1, 2, 3, 4, 5] =
      Except.error "NameError: name array is not defined" := by
  rfl

/-- C7.  Every CompressedArray actually built by the reader stores an
uncompressed size equal to the product of the entries of its stored
uncompressed shape: the three ragged builders compute the size as
exactly that product, and the gathered builder raises NameError before
constructing anything, so no gathered array is ever built. -/
theorem built_size_eq_prod_shape :
    (∀ c : ContiguousEntry, (aaa1 c).size = (aaa1 c).shape.prod)
    ∧ (∀ c : IndexedEntry, (aaa2 c).size = (aaa2 c).shape.prod)
    ∧ (∀ c : IndexedContiguousEntry, (aaa3 c).size = (aaa3 c).shape.prod)
    ∧ (∀ sizes : List Nat,
        aaa0 sizes = Except.error "NameError: name g is not defined") := by
  refine ⟨fun c => ?_, fun c => ?_, fun c => ?_, fun sizes => rfl⟩
  all_goals simp [aaa1, aaa2, aaa3, List.prod, Nat.mul_assoc]

/-- C9.  With `uncompress=False` stored by `read`, the branch condition
of `_create_data` is satisfied for every variable (its third disjunct
holds), so the data is always built directly from the raw file-backed
array and none of the four CompressedArray builders is reached, whatever
the compression mapping and the variable dimensions. -/
theorem uncompress_false_builds_raw (uncompress_override : Option Bool)
    (comp : CompMap) (var_dimensions : List String) :
    create_data_dispatch uncompress_override comp false var_dimensions =
      Except.ok DataBuild.raw := by
  simp [create_data_dispatch]

/-- C10.  `copy.deepcopy` on an Array routes through
Array.__deepcopy__, which returns exactly Array.copy: a new object of
the same class whose attribute dictionary is a shallow copy, so every
attribute name is bound to the identical shared reference. -/
theorem deepcopy_is_shallow_attr_copy (a : PyObj) (memo : List (Nat × Nat)) :
    array_deepcopy a memo = array_copy a
    ∧ (array_copy a).cls = a.cls
    ∧ (array_copy a).attrs = a.attrs
    ∧ ∀ k, attr_lookup (array_copy a).attrs k = attr_lookup a.attrs k := by
  exact ⟨rfl, rfl, rfl, fun k => rfl⟩

/-- Each iteration of the instance loop preserves the number of rows of
the buffer. -/
theorem rix_fold_length [Inhabited α] (index_array : List Nat) (vals : List α)
    (l : List Nat) (u : List (List (Option α))) :
    (l.foldl (rix_step index_array vals) u).length = u.length := by
  induction l generalizing u with
  | nil => rfl
  | cons x rest ih =>
    simp only [List.foldl_cons]
    rw [ih]
    simp [rix_step]

/-- Rows at positions not yet visited by the instance loop still hold
their starting value. -/
theorem rix_fold_get_ge [Inhabited α] (index_array : List Nat) (vals : List α)
    (u : List (List (Option α))) :
    ∀ m i, m ≤ i → ((List.range m).foldl (rix_step index_array vals) u)[i]? = u[i]? := by
  intro m
  induction m with
  | zero => intro i _; rfl
  | succ m ih =>
    intro i hi
    rw [List.range_succ, List.foldl_append]
    simp only [List.foldl_cons, List.foldl_nil]
    rw [rix_step]
    have hne : m ≠ i := Nat.ne_of_lt (Nat.lt_of_succ_le hi)
    rw [List.getElem?_set_ne hne]
    exact ih i (Nat.le_of_succ_le hi)

/-- After the instance loop has visited row `i`, that row holds the
matched values written over the fully masked row. -/
theorem rix_fold_get_lt [Inhabited α] (shape0 shape1 : Nat)
    (index_array : List Nat) (vals : List α) :
    ∀ m i, i < m → i < shape0 →
      ((List.range m).foldl (rix_step index_array vals)
          (masked_all2 shape0 shape1))[i]? =
        some (write_row (List.replicate shape1 none)
          (fancy_index vals (npwhere_eq index_array i))) := by
  intro m
  induction m with
  | zero => intro i hi; exact absurd hi (Nat.not_lt_zero i)
  | succ m ih =>
    intro i hi hs
    rw [List.range_succ, List.foldl_append]
    simp only [List.foldl_cons, List.foldl_nil]
    rcases Nat.lt_or_ge i m with hlt | hge
    · rw [rix_step]
      rw [List.getElem?_set_ne (Nat.ne_of_gt hlt)]
      exact ih i hlt hs
    · have him : i = m := Nat.le_antisymm (Nat.le_of_lt_succ hi) hge
      subst him
      have hrow : ((List.range i).foldl (rix_step index_array vals)
          (masked_all2 shape0 shape1))[i]? =
          some (List.replicate shape1 (none : Option α)) := by
        rw [rix_fold_get_ge index_array vals _ i i (Nat.le_refl i)]
        simp [masked_all2, List.getElem?_replicate, hs]
      have hlen : ((List.range i).foldl (rix_step index_array vals)
          (masked_all2 shape0 shape1)).length = shape0 := by
        rw [rix_fold_length]; simp [masked_all2]
      rw [rix_step]
      have hgetd : ((List.range i).foldl (rix_step index_array vals)
          (masked_all2 shape0 shape1)).getD i [] =
          List.replicate shape1 (none : Option α) := by
        rw [List.getD_eq_getElem?_getD, hrow]; rfl
      rw [hgetd]
      exact List.getElem?_set_eq_of_lt _ (by rw [hlen]; exact hs)

/-- C4.  Indexed ragged decompression: for every instance `i` of the
uncompressed array, RaggedIndexedArray.__getitem__ gathers the
sample-dimension positions whose stored index equals `i` — exactly the
positions below the sample size whose index matches, enumerated in
ascending (on-disk) order, not necessarily contiguous — and writes their
values to destination `(i, 0:number of matches)`, every trailing
position of the row staying masked. -/
theorem ragged_indexed_placement [Inhabited α] (shape0 shape1 : Nat)
    (index_array : List Nat) (vals : List α) (i : Nat)
    (hi : i < shape0) (_hfit : (npwhere_eq index_array i).length ≤ shape1) :
    (ragged_indexed_getitem shape0 shape1 index_array vals)[i]? =
      some ((npwhere_eq index_array i).map (fun p => some (vals.getD p default))
        ++ List.replicate (shape1 - (npwhere_eq index_array i).length) none)
    ∧ List.Pairwise (· < ·) (npwhere_eq index_array i)
    ∧ ∀ p, p ∈ npwhere_eq index_array i ↔
        p < index_array.length ∧ index_array.getD p 0 = i := by
  refine ⟨?_, ?_, ?_⟩
  · rw [ragged_indexed_getitem, get_subspace_all, ragged_indexed_uncompressed]
    rw [rix_fold_get_lt shape0 shape1 index_array vals shape0 i hi hi]
    rw [write_row, fancy_index]
    rw [List.map_map, List.length_map]
    rw [List.drop_replicate]
    rfl
  · exact ((List.pairwise_lt_range index_array.length).sublist
      (List.filter_sublist _))
  · intro p
    rw [npwhere_eq, List.mem_filter, List.mem_range]
    simp

/-- Witness for C4 at the claimed concrete input: index array [1,0,1,0]
over values [10,20,30,40] decompresses instance 0 to [20,40] and
instance 1 to [10,30], in encounter order. -/
theorem ragged_indexed_placement_witness :
    ((0:Nat) < 2 ∧ (npwhere_eq [1, 0, 1, 0] 0).length ≤ 2 ∧
      (1:Nat) < 2 ∧ (npwhere_eq [1, 0, 1, 0] 1).length ≤ 2)
    ∧ (ragged_indexed_getitem 2 2 [1, 0, 1, 0] [10, 20, 30, 40])[0]? =
        some [some 20, some 40]
    ∧ (ragged_indexed_getitem 2 2 [1, 0, 1, 0] [10, 20, 30, 40])[1]? =
        some [some 10, some 30] := by
  refine ⟨⟨by decide, by decide, by decide, by decide⟩, ?_, ?_⟩
  · exact ((ragged_indexed_placement 2 2 [1, 0, 1, 0] [10, 20, 30, 40] 0
      (by decide) (by decide)).1).trans (by decide)
  · exact ((ragged_indexed_placement 2 2 [1, 0, 1, 0] [10, 20, 30, 40] 1
      (by decide) (by decide)).1).trans (by decide)


/-- Updating the entry under key `k` changes exactly that lookup. -/
theorem lookupComp_updateComp_self (m : CompMap) (k : String)
    (f : CompressionEntry → CompressionEntry) :
    lookupComp (updateComp m k f) k = (lookupComp m k).map f := by
  induction m with
  | nil => rfl
  | cons hd rest ih =>
    by_cases h : hd.1 = k
    · simp [updateComp, lookupComp, h]
    · simp [updateComp, lookupComp, h, ih]

/-- Updating the entry under key `k` leaves every other lookup
unchanged. -/
theorem lookupComp_updateComp_ne (m : CompMap) (k k2 : String)
    (f : CompressionEntry → CompressionEntry) (h : k2 ≠ k) :
    lookupComp (updateComp m k f) k2 = lookupComp m k2 := by
  induction m with
  | nil => rfl
  | cons hd rest ih =>
    by_cases hh : hd.1 = k
    · have hk2 : ¬ (k = k2) := fun e => h e.symm
      simp [updateComp, lookupComp, hh, hk2]
    · by_cases h2 : hd.1 = k2
      · simp [updateComp, lookupComp, hh, h2, h]
      · simp [updateComp, lookupComp, hh, h2, ih]

/-- C5 counterexample.  On `comp_mismatch` (contiguous half under `s`
naming profile dimension `q`, indexed half keyed by `p`) the claim says
the composition step is skipped and both halves are left standalone
without raising; instead `_parse_DSG_indexed_contiguous_compression`
runs its unguarded lookup `g['compression'][profile_ncdimension]` and
raises KeyError: the call returns no mapping at all. -/
theorem composition_mismatch_raises :
    parse_DSG_indexed_contiguous_compression comp_mismatch "s" "inst" =
      Except.error "KeyError"
    ∧ (parse_DSG_indexed_contiguous_compression comp_mismatch "s" "inst").isOk
      = false := by
  exact ⟨rfl, rfl⟩

/-- C5 as amended.  When both halves are present,
`_parse_DSG_indexed_contiguous_compression` composes them exactly when
its unguarded dictionary lookups succeed, that is when the contiguous
half's profile dimension is the key under which the indexed half was
recorded (the dimension spanned by the index variable): then the
composed ragged_indexed_contiguous descriptor is keyed by the original
sample dimension, carries the implied dimensions (instance dimension,
indexed element dimension, contiguous element dimension) and the
per-instance profile grouping of the indexed half, the standalone
contiguous descriptor under the sample dimension is discarded, and
every other key is untouched.  When the profile dimension is not such a
key, or holds no indexed half, the call raises KeyError (aborting the
read) instead of skipping the composition step. -/
theorem composition_behavior (comp : CompMap) (s instd : String)
    (e0 : CompressionEntry) (cont : ContiguousEntry)
    (h0 : lookupComp comp s = some e0)
    (hc : e0.DSG_contiguous = some cont) :
    (lookupComp comp cont.profile_ncdimension = none →
      parse_DSG_indexed_contiguous_compression comp s instd =
        Except.error "KeyError")
    ∧ (∀ e1, lookupComp comp cont.profile_ncdimension = some e1 →
        e1.DSG_indexed = none →
        parse_DSG_indexed_contiguous_compression comp s instd =
          Except.error "KeyError")
    ∧ (∀ e1 idx m1 m2, lookupComp comp cont.profile_ncdimension = some e1 →
        e1.DSG_indexed = some idx →
        idx.elements_per_instance.max? = some m1 →
        cont.elements_per_instance.max? = some m2 →
        ∃ compNew,
          parse_DSG_indexed_contiguous_compression comp s instd =
            Except.ok compNew
          ∧ lookupComp compNew s = some
              { e0 with
                DSG_contiguous := none,
                DSG_indexed_contiguous := some
                  { profiles_per_instance := idx.elements_per_instance,
                    elements_per_profile := cont.elements_per_instance,
                    profile_indices := idx.instances,
                    implied_ncdimensions :=
                      [instd, idx.element_dimension, cont.element_dimension],
                    instance_dimension_size := idx.instance_dimension_size,
                    element_dimension_1_size := m1,
                    element_dimension_2_size := m2 } }
          ∧ ∀ k, k ≠ s → lookupComp compNew k = lookupComp comp k) := by
  refine ⟨?_, ?_, ?_⟩
  · intro hp
    simp [parse_DSG_indexed_contiguous_compression, dictGet, schemeGet,
      h0, hc, hp, Bind.bind, Except.bind]
  · intro e1 hp hnone
    simp [parse_DSG_indexed_contiguous_compression, dictGet, schemeGet,
      h0, hc, hp, hnone, Bind.bind, Except.bind]
  · intro e1 idx m1 m2 hp hidx hm1 hm2
    have hres : parse_DSG_indexed_contiguous_compression comp s instd =
        Except.ok (updateComp comp s (fun e =>
          { e with
            DSG_indexed_contiguous := some
              { profiles_per_instance := idx.elements_per_instance,
                elements_per_profile := cont.elements_per_instance,
                profile_indices := idx.instances,
                implied_ncdimensions :=
                  [instd, idx.element_dimension, cont.element_dimension],
                instance_dimension_size := idx.instance_dimension_size,
                element_dimension_1_size := m1,
                element_dimension_2_size := m2 },
            DSG_contiguous := none })) := by
      simp [parse_DSG_indexed_contiguous_compression, dictGet, schemeGet,
        npmax, h0, hc, hp, hidx, hm1, hm2, Bind.bind, Except.bind]
    refine ⟨_, hres, ?_, ?_⟩
    · rw [lookupComp_updateComp_self, h0]
      rfl
    · intro k hk
      exact lookupComp_updateComp_ne comp s k _ hk

/-- Witness for C5 as amended, at the matching fixture `comp_match`:
composition succeeds, the composed descriptor sits under the sample
dimension `s` with the contiguous half discarded and the implied
dimensions (instance, profile, element) assembled from both halves, and
the key `p` is untouched. -/
theorem composition_behavior_witness :
    (lookupComp comp_match "s" =
        some { DSG_contiguous := some (cont_half "p") }
      ∧ ({ DSG_contiguous := some (cont_half "p") } :
          CompressionEntry).DSG_contiguous = some (cont_half "p"))
    ∧ ∃ compNew,
        parse_DSG_indexed_contiguous_compression comp_match "s" "inst" =
          Except.ok compNew
        ∧ lookupComp compNew "s" = some
            { ({ DSG_contiguous := some (cont_half "p") } :
                CompressionEntry) with
              DSG_contiguous := none,
              DSG_indexed_contiguous := some
                { profiles_per_instance := idx_half.elements_per_instance,
                  elements_per_profile := (cont_half "p").elements_per_instance,
                  profile_indices := idx_half.instances,
                  implied_ncdimensions :=
                    ["inst", idx_half.element_dimension,
                     (cont_half "p").element_dimension],
                  instance_dimension_size := idx_half.instance_dimension_size,
                  element_dimension_1_size := 2,
                  element_dimension_2_size := 3 } }
        ∧ ∀ k, k ≠ "s" → lookupComp compNew k = lookupComp comp_match k := by
  refine ⟨⟨by decide, by decide⟩, ?_⟩
  exact (composition_behavior comp_match "s" "inst" _ _ (by decide)
    (by decide)).2.2 ({ DSG_indexed := some idx_half }) idx_half 2 3
    (by decide) (by decide) (by decide) (by decide)

/-- The substitution loop of `_ncdimensions` skips every leading
dimension that is absent from the compression mapping. -/
theorem ncdimensions_loop_skip (comp : CompMap) (all : List String) :
    ∀ (pre tail : List String), (∀ x ∈ pre, lookupComp comp x = none) →
      ncdimensions_loop comp all (pre ++ tail) =
        ncdimensions_loop comp all tail := by
  intro pre
  induction pre with
  | nil => intro tail _; rfl
  | cons x rest ih =>
    intro tail hpre
    have hx : lookupComp comp x = none := hpre x (by simp)
    rw [List.cons_append]
    rw [ncdimensions_loop]
    rw [hx]
    exact ih tail (fun y hy => hpre y (by simp [hy]))

/-- `list.index(d)` on a list whose first occurrence of `d` follows
`pre` returns the length of `pre`. -/
theorem list_index_append (pre suf : List String) (d : String)
    (h : ∀ x ∈ pre, x ≠ d) : list_index (pre ++ d :: suf) d = pre.length := by
  induction pre with
  | nil => simp [list_index]
  | cons x rest ih =>
    have hx : x ≠ d := h x (by simp)
    rw [List.cons_append]
    rw [list_index]
    rw [if_neg hx]
    rw [ih (fun y hy => h y (by simp [hy]))]
    rfl

/-- Splicing over the single element following `pre` concatenates the
three pieces. -/
theorem splice_at_append (pre suf repl : List String) (d : String) :
    splice_at (pre ++ d :: suf) pre.length repl = pre ++ repl ++ suf := by
  rw [splice_at]
  have h1 : (pre ++ d :: suf).take pre.length = pre := by
    rw [List.take_left]
  have h2 : (pre ++ d :: suf).drop (pre.length + 1) = suf := by
    rw [List.append_cons]
    have : pre.length + 1 = (pre ++ [d]).length := by simp
    rw [this, List.drop_left]
  rw [h1, h2]

/-- Looking anything up in an empty mapping yields nothing, so a
successful lookup forces a nonempty mapping. -/
theorem lookupComp_isEmpty_false (comp : CompMap) (d : String)
    (c : CompressionEntry) (h : lookupComp comp d = some c) :
    comp.isEmpty = false := by
  cases comp with
  | nil => exact absurd h (by simp [lookupComp])
  | cons hd rest => rfl

/-- C6 counterexample.  With a contiguous ragged descriptor under
sample dimension `s` implying (i, e), the variable dimension tuple
(x, s) is mapped by `_ncdimensions` to (i, e): the whole tuple is
replaced, and the non-compressed dimension `x` does not pass through in
place as the claim requires (which would give (x, i, e)). -/
theorem ncdimensions_dsg_replaces_whole_tuple :
    ncdimensions_fn comp_cont_only ["x", "s"] = ["i", "e"]
    ∧ ncdimensions_fn comp_cont_only ["x", "s"] ≠ ["x", "i", "e"] := by
  exact ⟨rfl, by decide⟩

/-- C6 as amended.  `_ncdimensions` on a variable dimension tuple:
a tuple containing no compressed sample dimension passes through
unchanged; at the first compressed dimension found (all dimensions
before it uncompressed), a gathered descriptor is substituted in place
(dimensions before and after pass through, in original order and
position), but a descriptor of any of the three DSG ragged schemes
replaces the WHOLE tuple with its implied-dimensions tuple, dropping
every other dimension; the loop stops after this first hit. -/
theorem ncdimensions_substitution :
    (∀ (comp : CompMap) (dims : List String),
      (∀ d ∈ dims, lookupComp comp d = none) →
      ncdimensions_fn comp dims = dims)
    ∧ (∀ (comp : CompMap) (pre suf : List String) (d : String)
        (c : CompressionEntry) (gg : GatheredEntry),
        (∀ x ∈ pre, lookupComp comp x = none) →
        lookupComp comp d = some c → c.gathered = some gg →
        ncdimensions_fn comp (pre ++ d :: suf) =
          pre ++ gg.implied_ncdimensions ++ suf)
    ∧ (∀ (comp : CompMap) (pre suf : List String) (d : String)
        (c : CompressionEntry) (ic : IndexedContiguousEntry),
        (∀ x ∈ pre, lookupComp comp x = none) →
        lookupComp comp d = some c → c.gathered = none →
        c.DSG_indexed_contiguous = some ic →
        ncdimensions_fn comp (pre ++ d :: suf) = ic.implied_ncdimensions)
    ∧ (∀ (comp : CompMap) (pre suf : List String) (d : String)
        (c : CompressionEntry) (ce : ContiguousEntry),
        (∀ x ∈ pre, lookupComp comp x = none) →
        lookupComp comp d = some c → c.gathered = none →
        c.DSG_indexed_contiguous = none → c.DSG_contiguous = some ce →
        ncdimensions_fn comp (pre ++ d :: suf) = ce.implied_ncdimensions)
    ∧ (∀ (comp : CompMap) (pre suf : List String) (d : String)
        (c : CompressionEntry) (ie : IndexedEntry),
        (∀ x ∈ pre, lookupComp comp x = none) →
        lookupComp comp d = some c → c.gathered = none →
        c.DSG_indexed_contiguous = none → c.DSG_contiguous = none →
        c.DSG_indexed = some ie →
        ncdimensions_fn comp (pre ++ d :: suf) = ie.implied_ncdimensions) := by
  have hcond : ∀ (comp : CompMap) (pre suf : List String) (d : String)
      (c : CompressionEntry),
      (∀ x ∈ pre, lookupComp comp x = none) →
      lookupComp comp d = some c →
      ncdimensions_fn comp (pre ++ d :: suf) =
        ncdimensions_loop comp (pre ++ d :: suf) (d :: suf) := by
    intro comp pre suf d c hpre hd
    rw [ncdimensions_fn]
    rw [if_pos]
    · exact ncdimensions_loop_skip comp (pre ++ d :: suf) pre (d :: suf) hpre
    · rw [lookupComp_isEmpty_false comp d c hd]
      have hany : (pre ++ d :: suf).any
          (fun x => (lookupComp comp x).isSome) = true := by
        rw [List.any_eq_true]
        exact ⟨d, by simp, by simp [hd]⟩
      rw [hany]
      rfl
  refine ⟨?_, ?_, ?_, ?_, ?_⟩
  · intro comp dims hnone
    rw [ncdimensions_fn]
    rw [if_neg]
    intro hcontra
    rw [Bool.and_eq_true, List.any_eq_true] at hcontra
    obtain ⟨d, hdmem, hdsome⟩ := hcontra.2
    rw [hnone d hdmem] at hdsome
    exact absurd hdsome (by simp)
  · intro comp pre suf d c gg hpre hd hgg
    rw [hcond comp pre suf d c hpre hd]
    rw [ncdimensions_loop]
    rw [hd]
    simp only [hgg]
    have hxd : ∀ x ∈ pre, x ≠ d := by
      intro x hx he
      have hlx := hpre x hx
      rw [he] at hlx
      rw [hd] at hlx
      exact absurd hlx (by simp)
    rw [list_index_append pre suf d hxd]
    exact splice_at_append pre suf gg.implied_ncdimensions d
  · intro comp pre suf d c ic hpre hd hg hic
    rw [hcond comp pre suf d c hpre hd]
    rw [ncdimensions_loop]
    rw [hd]
    simp only [hg, hic]
  · intro comp pre suf d c ce hpre hd hg hic hce
    rw [hcond comp pre suf d c hpre hd]
    rw [ncdimensions_loop]
    rw [hd]
    simp only [hg, hic, hce]
  · intro comp pre suf d c ie hpre hd hg hic hce hie
    rw [hcond comp pre suf d c hpre hd]
    rw [ncdimensions_loop]
    rw [hd]
    simp only [hg, hic, hce, hie]

/-- Witness for C6 as amended: a gathered dimension `gdim` inside
(x, gdim, y) is substituted in place giving (x, a, b, y), while a
contiguous ragged dimension `s` inside (x, s) replaces the whole tuple
giving (i, e), and a tuple with no compressed dimension passes through
unchanged. -/
theorem ncdimensions_substitution_witness :
    ncdimensions_fn comp_gath_only ["x", "gdim", "y"] = ["x", "a", "b", "y"]
    ∧ ncdimensions_fn comp_cont_only ["x", "s"] = ["i", "e"]
    ∧ ncdimensions_fn comp_cont_only ["x", "y"] = ["x", "y"] := by
  refine ⟨?_, ?_, ?_⟩
  · have h := ncdimensions_substitution.2.1 comp_gath_only ["x"] ["y"] "gdim"
      ({ gathered := some gath_entry }) gath_entry
      (by decide) (by decide) (by decide)
    exact h.trans (by decide)
  · have h := ncdimensions_substitution.2.2.2.1 comp_cont_only ["x"] [] "s"
      ({ DSG_contiguous := some cont_entry }) cont_entry
      (by decide) (by decide) (by decide) (by decide) (by decide)
    exact h.trans (by decide)
  · exact ncdimensions_substitution.1 comp_cont_only ["x", "y"] (by decide)

/-- C8.  A list variable whose compress attribute names at least one
netCDF dimension absent from the file is rejected by `_check_compress`,
and `_parse_compression_gathered` then returns with the compression
mapping untouched — no gathered entry is recorded and nothing is raised
(the embedded function is total and yields the input mapping).  A
variable spanning that dimension is subsequently routed by
`_create_data` to the ordinary uncompressed data path (second conjunct,
for a scan that recorded nothing else). -/
theorem bad_compress_rejected (comp : CompMap)
    (file_ncdimensions : List String) (gathered_ncdimension : String)
    (compress : String) (indices : List Nat) (d : String)
    (hmem : d ∈ parse_y compress)
    (habs : file_ncdimensions.contains d = false) :
    parse_compression_gathered comp file_ncdimensions gathered_ncdimension
        compress indices = comp
    ∧ create_data_dispatch none
        (parse_compression_gathered [] file_ncdimensions
          gathered_ncdimension compress indices) true [gathered_ncdimension] =
      Except.ok DataBuild.raw := by
  have hcc : check_compress file_ncdimensions (parse_y compress) = false := by
    rw [check_compress]
    by_contra hcontra
    rw [Bool.not_eq_false, List.all_eq_true] at hcontra
    have hd := hcontra d hmem
    rw [habs] at hd
    exact absurd hd (by simp)
  have hmain : ∀ m : CompMap,
      parse_compression_gathered m file_ncdimensions gathered_ncdimension
        compress indices = m := by
    intro m
    rw [parse_compression_gathered]
    simp only [hcc]
    rfl
  refine ⟨hmain comp, ?_⟩
  rw [hmain []]
  rw [create_data_dispatch]
  rw [if_pos]
  exact Or.inr (Or.inl rfl)

/-- Witness for C8: the compress attribute `lat lon` on a list variable
over dimension `landpoint`, in a file whose only dimension is `lat`:
the missing `lon` causes rejection, the mapping stays empty and the
list variable's own data is built uncompressed. -/
theorem bad_compress_rejected_witness :
    ("lon" ∈ parse_y "lat lon"
      ∧ (["lat"] : List String).contains "lon" = false)
    ∧ parse_compression_gathered [] ["lat"] "landpoint" "lat lon" [0, 1] = []
    ∧ create_data_dispatch none
        (parse_compression_gathered [] ["lat"] "landpoint" "lat lon" [0, 1])
        true ["landpoint"] = Except.ok DataBuild.raw := by
  refine ⟨⟨by decide, by decide⟩, ?_, ?_⟩
  · exact (bad_compress_rejected [] ["lat"] "landpoint" "lat lon" [0, 1]
      "lon" (by decide) (by decide)).1
  · exact (bad_compress_rejected [] ["lat"] "landpoint" "lat lon" [0, 1]
      "lon" (by decide) (by decide)).2
